import Mathlib

/-!
Shallow embedding of the Go package `output` (file `output.go`), which writes
uniform JSON envelopes to an `http.ResponseWriter`.

Modelling conventions:
* JSON values produced by `encoding/json` are modelled by the inductive `Json`.
* The Go `interface{}`-typed `Data` field is modelled by `Option Json`;
  `none` models a nil interface value.
* A Go `error` interface value is modelled by `Option String`; `none` models a
  nil error (on which calling `.Error()` panics), `some s` an error whose
  `Error()` method returns `s`.
* The `http.ResponseWriter` is modelled by the trace of transport operations
  performed on it (`WriteEvent`), in the order the source invokes them.
* `time.Now().UTC().Format("2006-01-02T15:04:05.000") + "Z"` is modelled by a
  `now : String` parameter threaded through the functions that read the clock.
* The package-global `debug` flag defaults to `false`; the `log.Println`
  branches guarded by it perform no transport operation and are not modelled.
-/

namespace Output

/-- JSON values, as produced by Go `encoding/json` marshalling. -/
inductive Json where
  | null
  | bool (b : Bool)
  | num (n : Int)
  | str (s : String)
  | arr (elems : List Json)
  | obj (fields : List (String × Json))

/-- A Go `error` interface value: `none` models a nil error. -/
abbrev GoError := Option String

/-- `ErrorPayload` from output.go: descriptive data about an error.
Both fields carry the `json:",omitempty"` tag. -/
structure ErrorPayload where
  Error : String := ""
  Message : String := ""
deriving DecidableEq

/-- `Payload` from output.go: the envelope sent back to the client.
Field order matches the Go struct: OK, Type, Data, ErrorData, Datetime.
`Data` and `ErrorData` carry the `json:",omitempty"` tag. -/
structure Payload where
  OK : Bool
  «Type» : String
  Data : Option Json
  ErrorData : ErrorPayload
  Datetime : String

/-- Marshalling of `ErrorPayload` by `encoding/json`: each string field has
`json:",omitempty"`, so it is dropped when it is the empty string. -/
def ErrorPayload.marshal (e : ErrorPayload) : Json :=
  Json.obj ((if e.Error = "" then [] else [("Error", Json.str e.Error)])
    ++ (if e.Message = "" then [] else [("Message", Json.str e.Message)]))

/-- Marshalling of `Payload` by `encoding/json`.  Per Go semantics:
`Data` (an interface-typed field with `json:",omitempty"`) is omitted exactly
when the interface value is nil; `ErrorData` is a struct-typed field, and
`omitempty` has no effect on struct-typed fields (a struct is never an "empty
value" for encoding/json), so the `ErrorData` key is always emitted. -/
def Payload.marshal (p : Payload) : Json :=
  Json.obj ([("OK", Json.bool p.OK), ("Type", Json.str p.«Type»)]
    ++ (match p.Data with
        | none => []
        | some d => [("Data", d)])
    ++ [("ErrorData", p.ErrorData.marshal), ("Datetime", Json.str p.Datetime)])

/-- Whether a JSON object carries a key. -/
def Json.hasKey : Json → String → Bool
  | Json.obj fields, k => fields.any (fun kv => kv.fst == k)
  | _, _ => false

/-- One transport operation on the `http.ResponseWriter`, in the order the
source invokes them. -/
inductive WriteEvent where
  | setHeader (name value : String)
  | writeHeader (code : Int)
  | write (body : Json)

/-- `ErrInvalidResponseCode` from output.go (message of the `errors.New`). -/
def ErrInvalidResponseCode : String := "output: invalid HTTP response code"

/-- `errInputInvalid` from output.go: a non-nil error constructed by the
package itself. -/
def errInputInvalid : GoError := some "input validation error"

/-- `errAlreadyExists` from output.go: a non-nil error constructed by the
package itself. -/
def errAlreadyExists : GoError := some "already exists"

/-- Predefined message types from output.go. -/
def msgTypeError : String := "error"

def msgTypeInsertOK : String := "insertOK"

def msgTypeUpdateOK : String := "updateOK"

def msgTypeDeleteOK : String := "deleteOK"

def msgTypeDataFound : String := "dataFound"

/-- `Payload.send` from output.go.  The source performs, in this order:
`w.WriteHeader(responseCode)`, then `w.Header().Set("Content-Type", ...)`,
then `j, err := json.Marshal(p); w.Write(j)`.  Marshalling of our
`Json`-valued payloads is total, and the error of `w.Write` is discarded by
the source, so the returned error is nil. -/
def Payload.send (p : Payload) (responseCode : Int) :
    List WriteEvent × Option String :=
  ([WriteEvent.writeHeader responseCode,
    WriteEvent.setHeader "Content-Type" "application/json; charset=UTF-8",
    WriteEvent.write p.marshal], none)

/-- `buildAndSend` from output.go: builds a Payload from the provided ok,
msgType, msgData and errData (with `Datetime` taken from the clock, modelled
by `now`) and calls `send`. -/
def buildAndSend (ok : Bool) (msgType : String) (msgData : Option Json)
    (errData : ErrorPayload) (now : String) (responseCode : Int) :
    List WriteEvent × Option String :=
  (Payload.mk ok msgType msgData errData now).send responseCode

/-- Whitespace characters recognised by `strings.TrimSpace` (the ASCII
subset of `unicode.IsSpace`, which covers every character occurring in the
strings this package manipulates). -/
def isSpace (c : Char) : Bool :=
  c == ' ' || c == '\t' || c == '\n' || c == '\x0b' || c == '\x0c' || c == '\r'

/-- `strings.TrimSpace`: drop leading and trailing whitespace. -/
def trimSpace (s : String) : String :=
  String.mk (((s.data.dropWhile isSpace).reverse.dropWhile isSpace).reverse)

/-- `net/http.StatusText`: the standard reason phrase for a status code, or
the empty string for an unknown code (table from net/http/status.go). -/
def statusText (code : Int) : String :=
  if code = 100 then "Continue"
  else if code = 101 then "Switching Protocols"
  else if code = 102 then "Processing"
  else if code = 103 then "Early Hints"
  else if code = 200 then "OK"
  else if code = 201 then "Created"
  else if code = 202 then "Accepted"
  else if code = 203 then "Non-Authoritative Information"
  else if code = 204 then "No Content"
  else if code = 205 then "Reset Content"
  else if code = 206 then "Partial Content"
  else if code = 207 then "Multi-Status"
  else if code = 208 then "Already Reported"
  else if code = 226 then "IM Used"
  else if code = 300 then "Multiple Choices"
  else if code = 301 then "Moved Permanently"
  else if code = 302 then "Found"
  else if code = 303 then "See Other"
  else if code = 304 then "Not Modified"
  else if code = 305 then "Use Proxy"
  else if code = 307 then "Temporary Redirect"
  else if code = 308 then "Permanent Redirect"
  else if code = 400 then "Bad Request"
  else if code = 401 then "Unauthorized"
  else if code = 402 then "Payment Required"
  else if code = 403 then "Forbidden"
  else if code = 404 then "Not Found"
  else if code = 405 then "Method Not Allowed"
  else if code = 406 then "Not Acceptable"
  else if code = 407 then "Proxy Authentication Required"
  else if code = 408 then "Request Timeout"
  else if code = 409 then "Conflict"
  else if code = 410 then "Gone"
  else if code = 411 then "Length Required"
  else if code = 412 then "Precondition Failed"
  else if code = 413 then "Request Entity Too Large"
  else if code = 414 then "Request URI Too Long"
  else if code = 415 then "Unsupported Media Type"
  else if code = 416 then "Requested Range Not Satisfiable"
  else if code = 417 then "Expectation Failed"
  else if code = 418 then "I\x27m a teapot"
  else if code = 421 then "Misdirected Request"
  else if code = 422 then "Unprocessable Entity"
  else if code = 423 then "Locked"
  else if code = 424 then "Failed Dependency"
  else if code = 425 then "Too Early"
  else if code = 426 then "Upgrade Required"
  else if code = 428 then "Precondition Required"
  else if code = 429 then "Too Many Requests"
  else if code = 431 then "Request Header Fields Too Large"
  else if code = 451 then "Unavailable For Legal Reasons"
  else if code = 500 then "Internal Server Error"
  else if code = 501 then "Not Implemented"
  else if code = 502 then "Bad Gateway"
  else if code = 503 then "Service Unavailable"
  else if code = 504 then "Gateway Timeout"
  else if code = 505 then "HTTP Version Not Supported"
  else if code = 506 then "Variant Also Negotiates"
  else if code = 507 then "Insufficient Storage"
  else if code = 508 then "Loop Detected"
  else if code = 510 then "Not Extended"
  else if code = 511 then "Network Authentication Required"
  else ""

/-- `Send` from output.go, the explicit dispatcher.  It mutates its by-value
copy of `p` (Datetime default, OK correction), aborts with
`ErrInvalidResponseCode` when the response code is below
`http.StatusContinue` (100) before performing any transport operation,
defaults a blank Type from the response code, and calls `send`. -/
def Send (p : Payload) (now : String) (responseCode : Int) :
    List WriteEvent × Option String :=
  let p1 := if trimSpace p.Datetime = "" then { p with Datetime := now } else p
  let p2 := if p1.ErrorData ≠ ({} : ErrorPayload) then { p1 with OK := false }
    else p1
  if responseCode < 100 then
    ([], some ErrInvalidResponseCode)
  else
    let p3 := if trimSpace p2.«Type» = "" then
        { p2 with «Type» := toString responseCode ++ "-" ++ statusText responseCode }
      else p2
    p3.send responseCode

/-- The envelope the explicit dispatcher `Send` actually writes (the payload
after its validation/defaulting pass), for a valid response code. -/
def Send.payloadSent (p : Payload) (now : String) (responseCode : Int) :
    Payload :=
  let p1 := if trimSpace p.Datetime = "" then { p with Datetime := now } else p
  let p2 := if p1.ErrorData ≠ ({} : ErrorPayload) then { p1 with OK := false }
    else p1
  if trimSpace p2.«Type» = "" then
    { p2 with «Type» := toString responseCode ++ "-" ++ statusText responseCode }
  else p2

/-- `Success` from output.go: `buildAndSend(true, msgType, data, ErrorPayload{}, w, http.StatusOK)`. -/
def Success (msgType : String) (data : Option Json) (now : String) :
    List WriteEvent × Option String :=
  buildAndSend true msgType data {} now 200

/-- `InsertOK` from output.go. -/
def InsertOK (id : Int) (now : String) : List WriteEvent × Option String :=
  Success msgTypeInsertOK (some (Json.num id)) now

/-- `InsertOKWithData` from output.go. -/
def InsertOKWithData (data : Option Json) (now : String) :
    List WriteEvent × Option String :=
  Success msgTypeInsertOK data now

/-- `UpdateOK` from output.go. -/
def UpdateOK (now : String) : List WriteEvent × Option String :=
  Success msgTypeUpdateOK none now

/-- `UpdateOKWithData` from output.go. -/
def UpdateOKWithData (data : Option Json) (now : String) :
    List WriteEvent × Option String :=
  Success msgTypeUpdateOK data now

/-- `DataFound` from output.go. -/
def DataFound (data : Option Json) (now : String) :
    List WriteEvent × Option String :=
  Success msgTypeDataFound data now

/-- `Error` from output.go.  The source first evaluates
`ErrorPayload{Error: errType.Error(), Message: errMsg}`; calling `.Error()`
on a nil error value panics there, before any envelope is constructed or
written, which is modelled by `Except.error ()` (a result carrying no
transport events).  Otherwise it calls
`buildAndSend(false, msgTypeError, nil, ep, w, http.StatusInternalServerError)`. -/
def Error (errType : GoError) (errMsg : String) (now : String) :
    Except Unit (List WriteEvent × Option String) :=
  match errType with
  | none => Except.error ()
  | some s =>
    Except.ok (buildAndSend false msgTypeError none ⟨s, errMsg⟩ now 500)

/-- `ErrorInputInvalid` from output.go: `Error(errInputInvalid, msg, w)`. -/
def ErrorInputInvalid (msg : String) (now : String) :
    Except Unit (List WriteEvent × Option String) :=
  Error errInputInvalid msg now

/-- `ErrorAlreadyExists` from output.go: `Error(errAlreadyExists, msg, w)`. -/
def ErrorAlreadyExists (msg : String) (now : String) :
    Except Unit (List WriteEvent × Option String) :=
  Error errAlreadyExists msg now

/-- `ErrorWithID` from output.go: like `Error` but with `id` as the Data.
The nil-error panic happens at the same place as in `Error`. -/
def ErrorWithID (errType : GoError) (errMsg : String) (id : Int)
    (now : String) : Except Unit (List WriteEvent × Option String) :=
  match errType with
  | none => Except.error ()
  | some s =>
    Except.ok (buildAndSend false msgTypeError (some (Json.num id)) ⟨s, errMsg⟩
      now 500)

/-- `ErrorInputInvalidWithID` from output.go:
`ErrorWithID(errInputInvalid, msg, id, w)`. -/
def ErrorInputInvalidWithID (msg : String) (id : Int) (now : String) :
    Except Unit (List WriteEvent × Option String) :=
  ErrorWithID errInputInvalid msg id now

/-- Did any `w.Write` call happen on the transport? -/
def wroteBody (evs : List WriteEvent) : Bool :=
  evs.any fun e => match e with
    | WriteEvent.write _ => true
    | _ => false

/-! ### Helper lemmas -/

theorem trimSpace_eq_empty_all_space (s : String) (h : trimSpace s = "") :
    ∀ c ∈ s.data, isSpace c = true := by
  have hl : (((s.data.dropWhile isSpace).reverse.dropWhile isSpace).reverse)
      = [] := congrArg String.data h
  rw [List.reverse_eq_nil_iff, List.dropWhile_eq_nil_iff] at hl
  intro c hc
  rw [← List.takeWhile_append_dropWhile (p := isSpace) (l := s.data)] at hc
  rcases List.mem_append.mp hc with h1 | h2
  · exact List.mem_takeWhile_imp h1
  · exact hl c (List.mem_reverse.mpr h2)

theorem trimSpace_ne_empty (s : String) (c : Char) (hc : c ∈ s.data)
    (hns : isSpace c = false) : trimSpace s ≠ "" := by
  intro h
  have := trimSpace_eq_empty_all_space s h c hc
  rw [hns] at this
  exact Bool.false_ne_true this

theorem synthType_ne_blank (code : Int) :
    trimSpace (toString code ++ "-" ++ statusText code) ≠ "" := by
  apply trimSpace_ne_empty _ '-'
  · rw [String.data_append, String.data_append]
    exact List.mem_append_left _ (List.mem_append_right _ (by simp [String.data]))
  · rfl

theorem Send_eq_payloadSent_send (p : Payload) (now : String) (code : Int)
    (hc : 100 ≤ code) :
    Send p now code = (Send.payloadSent p now code).send code := by
  have h : ¬ code < 100 := by omega
  simp only [Send, Send.payloadSent, if_neg h]

theorem payloadSent_fields (p : Payload) (now : String) (code : Int) :
    (Send.payloadSent p now code).Data = p.Data
    ∧ (Send.payloadSent p now code).ErrorData = p.ErrorData
    ∧ (Send.payloadSent p now code).OK
        = (if p.ErrorData = ({} : ErrorPayload) then p.OK else false)
    ∧ (Send.payloadSent p now code).Datetime
        = (if trimSpace p.Datetime = "" then now else p.Datetime)
    ∧ (Send.payloadSent p now code).«Type»
        = (if trimSpace p.«Type» = "" then
            toString code ++ "-" ++ statusText code
          else p.«Type») := by
  obtain ⟨ok, ty, da, ed, dt⟩ := p
  by_cases h1 : trimSpace dt = "" <;> by_cases h2 : ed = ({} : ErrorPayload) <;>
    by_cases h3 : trimSpace ty = "" <;>
    simp [Send.payloadSent, h1, h2, h3]

theorem payloadSent_type_ne_blank (p : Payload) (now : String) (code : Int) :
    trimSpace (Send.payloadSent p now code).«Type» ≠ "" := by
  have h := (payloadSent_fields p now code).2.2.2.2
  rw [h]
  by_cases h3 : trimSpace p.«Type» = ""
  · rw [if_pos h3]
    exact synthType_ne_blank code
  · rw [if_neg h3]
    exact h3

/-! ### Claim theorems -/

/-- C1: code bug.  At the failing input (an envelope with nil `Data` and a
zero-valued `ErrorData`, as written by `Success("t", nil, w)`), the
serialized JSON omits the `Data` key, but it does NOT omit the `ErrorData`
key: `json:",omitempty"` has no effect on a struct-typed field, so the
output contains `"ErrorData":{}` although the code comment in
`buildAndSend` and the spec say both keys are removed when empty. -/
theorem errorData_key_not_omitted :
    ((Payload.mk true "t" none {} "d").marshal.hasKey "Data" = false)
    ∧ ((Payload.mk true "t" none {} "d").marshal.hasKey "ErrorData" = true)
    ∧ ((Payload.mk true "t" none {} "d").ErrorData.marshal = Json.obj [])
    ∧ (Success "t" none "d").1
        = [WriteEvent.writeHeader 200,
           WriteEvent.setHeader "Content-Type" "application/json; charset=UTF-8",
           WriteEvent.write ((Payload.mk true "t" none {} "d").marshal)] :=
  ⟨rfl, rfl, rfl, rfl⟩

/-- C2: every implicit entry point (Success and its wrappers, Error with a
non-nil error value and its wrappers) performs the body write and returns a
nil error to the caller. -/
theorem implicit_entry_points_cannot_fail (msgType : String)
    (data : Option Json) (s msg now : String) (i : Int) :
    ((Success msgType data now).2 = none
      ∧ wroteBody (Success msgType data now).1 = true)
    ∧ ((InsertOK i now).2 = none ∧ wroteBody (InsertOK i now).1 = true)
    ∧ ((InsertOKWithData data now).2 = none
      ∧ wroteBody (InsertOKWithData data now).1 = true)
    ∧ ((UpdateOK now).2 = none ∧ wroteBody (UpdateOK now).1 = true)
    ∧ ((UpdateOKWithData data now).2 = none
      ∧ wroteBody (UpdateOKWithData data now).1 = true)
    ∧ ((DataFound data now).2 = none ∧ wroteBody (DataFound data now).1 = true)
    ∧ (∃ r, Error (some s) msg now = Except.ok r
      ∧ r.2 = none ∧ wroteBody r.1 = true)
    ∧ (∃ r, ErrorWithID (some s) msg i now = Except.ok r
      ∧ r.2 = none ∧ wroteBody r.1 = true)
    ∧ (∃ r, ErrorInputInvalid msg now = Except.ok r
      ∧ r.2 = none ∧ wroteBody r.1 = true)
    ∧ (∃ r, ErrorAlreadyExists msg now = Except.ok r
      ∧ r.2 = none ∧ wroteBody r.1 = true)
    ∧ (∃ r, ErrorInputInvalidWithID msg i now = Except.ok r
      ∧ r.2 = none ∧ wroteBody r.1 = true) :=
  ⟨⟨rfl, rfl⟩, ⟨rfl, rfl⟩, ⟨rfl, rfl⟩, ⟨rfl, rfl⟩, ⟨rfl, rfl⟩, ⟨rfl, rfl⟩,
   ⟨_, rfl, rfl, rfl⟩, ⟨_, rfl, rfl, rfl⟩, ⟨_, rfl, rfl, rfl⟩,
   ⟨_, rfl, rfl, rfl⟩, ⟨_, rfl, rfl, rfl⟩⟩

/-- C3: code bug.  For every envelope written, `send` performs the
transport operations in the order: write the status code
(`w.WriteHeader`), THEN set the Content-Type header, then write the body —
the header is set after the status code is written, not before as the
claim states (and per net/http semantics a header set after `WriteHeader`
is never transmitted). -/
theorem send_transport_order (p : Payload) (code : Int) :
    (p.send code).1
      = [WriteEvent.writeHeader code,
         WriteEvent.setHeader "Content-Type" "application/json; charset=UTF-8",
         WriteEvent.write p.marshal] :=
  rfl

/-- C5: for every envelope and every status code below 100
(`http.StatusContinue`), the explicit dispatcher `Send` returns
`ErrInvalidResponseCode` and performs no transport operation at all. -/
theorem Send_aborts_below_valid_range (p : Payload) (now : String)
    (code : Int) (hc : code < 100) :
    Send p now code = ([], some ErrInvalidResponseCode) := by
  simp [Send, hc]

/-- Witness for C5 at a concrete envelope and status code 0. -/
theorem Send_aborts_below_valid_range_witness :
    (0 : Int) < 100
    ∧ Send (Payload.mk true "t" none {} "d") "now" 0
        = ([], some ErrInvalidResponseCode) :=
  ⟨by decide, Send_aborts_below_valid_range (Payload.mk true "t" none {} "d")
    "now" 0 (by decide)⟩

/-- C8: the shorthand operations use fixed status codes and field
assignments: `Success` writes `{OK: true, Type: msgType, Data: data,
ErrorData: empty}` at status 200, and `Error` writes `{OK: false,
Type: "error", Data: nil, ErrorData: {Error: s, Message: msg}}` at
status 500; both return a nil error. -/
theorem shorthand_fixed_codes_and_fields (msgType : String)
    (data : Option Json) (s msg now : String) :
    Success msgType data now
      = ([WriteEvent.writeHeader 200,
          WriteEvent.setHeader "Content-Type" "application/json; charset=UTF-8",
          WriteEvent.write ((Payload.mk true msgType data {} now).marshal)],
         none)
    ∧ Error (some s) msg now
      = Except.ok ([WriteEvent.writeHeader 500,
          WriteEvent.setHeader "Content-Type" "application/json; charset=UTF-8",
          WriteEvent.write ((Payload.mk false msgTypeError none
            (ErrorPayload.mk s msg) now).marshal)], none)
    ∧ msgTypeError = "error" :=
  ⟨rfl, rfl, rfl⟩

/-- C10: the error-path operations call `.Error()` on the error value with
no nil guard: `Error` and `ErrorWithID` fault on a nil error value before
any envelope is constructed or written (the faulting result carries no
transport events), and are total on non-nil error values; the wrappers
always pass the package's own non-nil errors and therefore always
complete. -/
theorem error_paths_nil_error_faults (s msg now : String) (i : Int) :
    Error none msg now = Except.error ()
    ∧ ErrorWithID none msg i now = Except.error ()
    ∧ (∃ r, Error (some s) msg now = Except.ok r)
    ∧ (∃ r, ErrorWithID (some s) msg i now = Except.ok r)
    ∧ (∃ r, ErrorInputInvalid msg now = Except.ok r)
    ∧ (∃ r, ErrorAlreadyExists msg now = Except.ok r)
    ∧ (∃ r, ErrorInputInvalidWithID msg i now = Except.ok r) :=
  ⟨rfl, rfl, ⟨_, rfl⟩, ⟨_, rfl⟩, ⟨_, rfl⟩, ⟨_, rfl⟩, ⟨_, rfl⟩⟩

/-- C4: for every envelope passed to the explicit dispatcher `Send` with a
non-empty `ErrorData`, the written envelope has `OK = false` regardless of
the caller-supplied `OK`; and this is the only caller-supplied field value
the validation pass overwrites: `Data` and `ErrorData` are unchanged, and
`Datetime` and `Type` are unchanged whenever the caller supplied non-blank
values. -/
theorem Send_forces_ok_false (p : Payload) (now : String) (code : Int)
    (hE : p.ErrorData ≠ ({} : ErrorPayload)) (hc : 100 ≤ code) :
    Send p now code = (Send.payloadSent p now code).send code
    ∧ (Send.payloadSent p now code).OK = false
    ∧ (Send.payloadSent p now code).Data = p.Data
    ∧ (Send.payloadSent p now code).ErrorData = p.ErrorData
    ∧ (trimSpace p.Datetime ≠ ""
        → (Send.payloadSent p now code).Datetime = p.Datetime)
    ∧ (trimSpace p.«Type» ≠ ""
        → (Send.payloadSent p now code).«Type» = p.«Type») := by
  obtain ⟨hData, hED, hOK, hDT, hTy⟩ := payloadSent_fields p now code
  refine ⟨Send_eq_payloadSent_send p now code hc, ?_, hData, hED, ?_, ?_⟩
  · rw [hOK, if_neg hE]
  · intro h
    rw [hDT, if_neg h]
  · intro h
    rw [hTy, if_neg h]

/-- Witness for C4 at a concrete envelope with populated ErrorData and
caller-supplied OK = true, at status code 200. -/
theorem Send_forces_ok_false_witness :
    ((ErrorPayload.mk "e" "m") ≠ ({} : ErrorPayload) ∧ (100 : Int) ≤ 200)
    ∧ (Send (Payload.mk true "t" none (ErrorPayload.mk "e" "m") "d") "n" 200
        = (Send.payloadSent
            (Payload.mk true "t" none (ErrorPayload.mk "e" "m") "d") "n"
            200).send 200
      ∧ (Send.payloadSent
          (Payload.mk true "t" none (ErrorPayload.mk "e" "m") "d") "n"
          200).OK = false
      ∧ (Send.payloadSent
          (Payload.mk true "t" none (ErrorPayload.mk "e" "m") "d") "n"
          200).Data = (Payload.mk true "t" none (ErrorPayload.mk "e" "m")
            "d").Data
      ∧ (Send.payloadSent
          (Payload.mk true "t" none (ErrorPayload.mk "e" "m") "d") "n"
          200).ErrorData = (Payload.mk true "t" none
            (ErrorPayload.mk "e" "m") "d").ErrorData
      ∧ (trimSpace (Payload.mk true "t" none (ErrorPayload.mk "e" "m")
            "d").Datetime ≠ ""
          → (Send.payloadSent (Payload.mk true "t" none
              (ErrorPayload.mk "e" "m") "d") "n" 200).Datetime
            = (Payload.mk true "t" none (ErrorPayload.mk "e" "m")
                "d").Datetime)
      ∧ (trimSpace (Payload.mk true "t" none (ErrorPayload.mk "e" "m")
            "d").«Type» ≠ ""
          → (Send.payloadSent (Payload.mk true "t" none
              (ErrorPayload.mk "e" "m") "d") "n" 200).«Type»
            = (Payload.mk true "t" none (ErrorPayload.mk "e" "m")
                "d").«Type»)) :=
  ⟨⟨by decide, by decide⟩,
   Send_forces_ok_false (Payload.mk true "t" none (ErrorPayload.mk "e" "m")
     "d") "n" 200 (by decide) (by decide)⟩

/-- Counterexample to C6: `Success` with a blank topic writes an envelope
whose serialized Type is the blank string — no derived topic is synthesized
on the implicit path. -/
theorem success_blank_type_counterexample :
    (Success "" none "2024-01-02T03:04:05.000Z").1
      = [WriteEvent.writeHeader 200,
         WriteEvent.setHeader "Content-Type" "application/json; charset=UTF-8",
         WriteEvent.write (Json.obj
           [("OK", Json.bool true), ("Type", Json.str ""),
            ("ErrorData", Json.obj []),
            ("Datetime", Json.str "2024-01-02T03:04:05.000Z")])] :=
  rfl

/-- C6 amended: the Type key is always present in the serialized output;
envelopes written by the explicit `Send` dispatcher always have a non-blank
Type (a derived one is synthesized when the caller's topic is blank), and
the fixed-topic helpers always use non-blank predefined topics; but the
implicit `Success` path writes the caller-supplied topic verbatim, so a
blank supplied topic yields a blank Type. -/
theorem type_presence_amended (p : Payload) (msgType : String)
    (data : Option Json) (s msg now : String) (i : Int) (code : Int)
    (hc : 100 ≤ code) :
    p.marshal.hasKey "Type" = true
    ∧ Send p now code = (Send.payloadSent p now code).send code
    ∧ trimSpace (Send.payloadSent p now code).«Type» ≠ ""
    ∧ (Error (some s) msg now
        = Except.ok ((Payload.mk false msgTypeError none
            (ErrorPayload.mk s msg) now).send 500)
      ∧ trimSpace msgTypeError ≠ "")
    ∧ (InsertOK i now
        = (Payload.mk true msgTypeInsertOK (some (Json.num i)) {} now).send 200
      ∧ trimSpace msgTypeInsertOK ≠ "")
    ∧ (UpdateOK now
        = (Payload.mk true msgTypeUpdateOK none {} now).send 200
      ∧ trimSpace msgTypeUpdateOK ≠ "")
    ∧ (DataFound data now
        = (Payload.mk true msgTypeDataFound data {} now).send 200
      ∧ trimSpace msgTypeDataFound ≠ "")
    ∧ Success msgType data now
        = (Payload.mk true msgType data {} now).send 200 := by
  refine ⟨?_, Send_eq_payloadSent_send p now code hc,
    payloadSent_type_ne_blank p now code, ⟨rfl, by decide⟩, ⟨rfl, by decide⟩,
    ⟨rfl, by decide⟩, ⟨rfl, by decide⟩, rfl⟩
  rfl

/-- Witness for C6 (amended) at concrete inputs with status code 200. -/
theorem type_presence_amended_witness :
    (100 : Int) ≤ 200
    ∧ ((Payload.mk true "t" none {} "d").marshal.hasKey "Type" = true
    ∧ Send (Payload.mk true "t" none {} "d") "n" 200
        = (Send.payloadSent (Payload.mk true "t" none {} "d") "n" 200).send
            200
    ∧ trimSpace (Send.payloadSent (Payload.mk true "t" none {} "d") "n"
        200).«Type» ≠ ""
    ∧ (Error (some "e") "h" "n"
        = Except.ok ((Payload.mk false msgTypeError none
            (ErrorPayload.mk "e" "h") "n").send 500)
      ∧ trimSpace msgTypeError ≠ "")
    ∧ (InsertOK 1 "n"
        = (Payload.mk true msgTypeInsertOK (some (Json.num 1)) {} "n").send
            200
      ∧ trimSpace msgTypeInsertOK ≠ "")
    ∧ (UpdateOK "n"
        = (Payload.mk true msgTypeUpdateOK none {} "n").send 200
      ∧ trimSpace msgTypeUpdateOK ≠ "")
    ∧ (DataFound none "n"
        = (Payload.mk true msgTypeDataFound none {} "n").send 200
      ∧ trimSpace msgTypeDataFound ≠ "")
    ∧ Success "m" none "n" = (Payload.mk true "m" none {} "n").send 200) :=
  ⟨by decide,
   type_presence_amended (Payload.mk true "t" none {} "d") "m" none "e" "h"
     "n" 1 200 (by decide)⟩

/-- C7: for every envelope passed to `Send` with a blank Type and a valid
status code, the written envelope's Type is the literal status code number,
a hyphen, and the standard reason phrase; for 404 it is "404-Not Found". -/
theorem Send_synthesizes_type_from_code (p : Payload) (now : String)
    (code : Int) (hb : trimSpace p.«Type» = "") (hc : 100 ≤ code) :
    Send p now code = (Send.payloadSent p now code).send code
    ∧ (Send.payloadSent p now code).«Type»
        = toString code ++ "-" ++ statusText code
    ∧ (code = 404 → (Send.payloadSent p now code).«Type» = "404-Not Found")
    := by
  have hTy := (payloadSent_fields p now code).2.2.2.2
  refine ⟨Send_eq_payloadSent_send p now code hc, ?_, ?_⟩
  · rw [hTy, if_pos hb]
  · intro h
    subst h
    rw [hTy, if_pos hb]
    decide

/-- Witness for C7 at a concrete blank-Type envelope and status code 404. -/
theorem Send_synthesizes_type_from_code_witness :
    (trimSpace (Payload.mk true "" none {} "d").«Type» = ""
      ∧ (100 : Int) ≤ 404)
    ∧ (Send (Payload.mk true "" none {} "d") "n" 404
        = (Send.payloadSent (Payload.mk true "" none {} "d") "n" 404).send
            404
    ∧ (Send.payloadSent (Payload.mk true "" none {} "d") "n" 404).«Type»
        = toString (404 : Int) ++ "-" ++ statusText 404
    ∧ ((404 : Int) = 404
        → (Send.payloadSent (Payload.mk true "" none {} "d") "n"
            404).«Type» = "404-Not Found")) :=
  ⟨⟨by decide, by decide⟩,
   Send_synthesizes_type_from_code (Payload.mk true "" none {} "d") "n" 404
     (by decide) (by decide)⟩

/-- C9: the validation/defaulting pass of the explicit dispatcher is
idempotent: on an envelope on which the pass has already run (Datetime
non-blank, OK false whenever ErrorData is non-empty, Type non-blank),
running it again with a valid status code changes no field. -/
theorem send_validation_idempotent (p : Payload) (now : String) (code : Int)
    (hd : trimSpace p.Datetime ≠ "")
    (ho : p.ErrorData ≠ ({} : ErrorPayload) → p.OK = false)
    (ht : trimSpace p.«Type» ≠ "") (hc : 100 ≤ code) :
    Send.payloadSent p now code = p := by
  obtain ⟨ok, ty, da, ed, dt⟩ := p
  by_cases h2 : ed = ({} : ErrorPayload)
  · subst h2
    simp [Send.payloadSent, hd, ht]
  · have hok : ok = false := ho h2
    subst hok
    simp [Send.payloadSent, hd, ht, h2]

/-- Witness for C9 at a concrete already-validated envelope. -/
theorem send_validation_idempotent_witness :
    (trimSpace (Payload.mk false "t" none (ErrorPayload.mk "e" "m")
        "d").Datetime ≠ ""
      ∧ ((Payload.mk false "t" none (ErrorPayload.mk "e" "m")
          "d").ErrorData ≠ ({} : ErrorPayload)
        → (Payload.mk false "t" none (ErrorPayload.mk "e" "m") "d").OK
          = false)
      ∧ trimSpace (Payload.mk false "t" none (ErrorPayload.mk "e" "m")
          "d").«Type» ≠ ""
      ∧ (100 : Int) ≤ 200)
    ∧ Send.payloadSent (Payload.mk false "t" none (ErrorPayload.mk "e" "m")
        "d") "n" 200
      = Payload.mk false "t" none (ErrorPayload.mk "e" "m") "d" :=
  ⟨⟨by decide, by decide, by decide, by decide⟩,
   send_validation_idempotent (Payload.mk false "t" none
     (ErrorPayload.mk "e" "m") "d") "n" 200 (by decide) (by decide)
     (by decide) (by decide)⟩

end Output
